import Mathlib

/-!
Verification of `src/private_notes.py` (class `PrivNotes`), a password-protected
notes store built on the pyca `cryptography` library.

Shallow embedding conventions:
* Python byte strings and ASCII strings are both modelled as `List Nat`
  (the sequence of byte / character values); the hex transport encoding
  (`bytes.fromhex` on input, `.hex()` on output) is a bijection between byte
  strings and hex strings, so the model works directly with the underlying
  bytes.
* Cryptographic primitives (PBKDF2-HMAC-SHA256, HMAC-SHA256, AES-GCM) are
  modelled symbolically as injective encodings (a standard collision-free
  abstraction: the security of these primitives is exactly that distinct
  inputs give distinct outputs except with negligible probability).
* Library-level validation that the source code trips over is modelled
  faithfully: `cryptography.hazmat.primitives.padding.PKCS7(block_size)`
  validates at construction time that `block_size` (in bits) satisfies
  `0 <= block_size <= 2040` and `block_size % 8 == 0`, raising
  `ValueError("block_size must be in range(0, 2041).")` otherwise (PKCS7
  records the pad length in a single byte, so at most 255 bytes = 2040 bits
  of padding are expressible; this bound is inherent to PKCS7).  The source
  passes `16384`.
* Fallible Python code is modelled with `Except PyErr`; state-mutating
  methods return the post-state alongside the result (a raise leaves the
  state as it was at the raise point).
* Sources of randomness (`os.urandom(16)`) are passed in as explicit
  arguments.
-/

/-- Python byte strings / ASCII strings: the list of byte values. -/
abbrev Bytes := List Nat

/-- Python exceptions that the modelled code can raise. -/
inductive PyErr where
  /-- `ValueError(msg)`. -/
  | valueError (msg : String)
  /-- `AttributeError` (attribute lookup failed); msg names the attribute. -/
  | attributeError (msg : String)
  /-- `KeyError` from a dict subscript on a missing key. -/
  | keyError
  /-- `cryptography.exceptions.InvalidTag` from a failed AES-GCM decrypt. -/
  | invalidTag
  /-- `UnicodeDecodeError` from `.decode(ascii)` on non-ASCII bytes. -/
  | unicodeDecodeError
deriving DecidableEq, Repr

/-- Length-prefixed encoding of one byte string: `b.length :: b`.  Used as the
injective pairing underlying the symbolic primitives and the pickle model. -/
def encBytes (b : Bytes) : Bytes := b.length :: b

/-- Symbolic model of `PBKDF2HMAC(SHA256, length=32, salt, iterations=2000000)
.derive(password)` (source lines 41-44): an injective function of
`(password, salt)`, tagged with `0` to keep it disjoint from the other
primitives. -/
def pbkdf2Sha256 (password salt : Bytes) : Bytes :=
  0 :: (encBytes password ++ salt)

/-- Symbolic model of `hmac.HMAC(key, SHA256()); update(msg); finalize()`:
an injective function of `(key, msg)`, tagged with `1`. -/
def hmacSha256 (key msg : Bytes) : Bytes :=
  1 :: (encBytes key ++ msg)

/-- Symbolic model of `AESGCM(key).encrypt(nonce, plaintext, None)`: an
injective function of `(key, nonce, plaintext)`, tagged with `2`. -/
def aesgcmEncrypt (key nonce plaintext : Bytes) : Bytes :=
  2 :: (encBytes key ++ (encBytes nonce ++ plaintext))

/-- Decode one length-prefixed byte string, returning it and the rest. -/
def decBytes : Bytes → Option (Bytes × Bytes)
  | [] => none
  | n :: r => if n ≤ r.length then some (r.take n, r.drop n) else none

/-- Symbolic model of `AESGCM(key).decrypt(nonce, ct, None)`: the partial
inverse of `aesgcmEncrypt`; any blob that is not an encryption under exactly
this `(key, nonce)` fails authentication (`InvalidTag`). -/
def aesgcmDecrypt (key nonce ct : Bytes) : Except PyErr Bytes :=
  match ct with
  | 2 :: rest =>
    match decBytes rest with
    | some (k, rest2) =>
      match decBytes rest2 with
      | some (n, pt) =>
        if k = key ∧ n = nonce then .ok pt else .error .invalidTag
      | none => .error .invalidTag
    | none => .error .invalidTag
  | _ => .error .invalidTag

/-- The error raised by `cryptography.hazmat.primitives.padding.PKCS7` when
the requested block size (in bits) is out of range. -/
def pkcs7BlockSizeError : PyErr :=
  .valueError "block_size must be in range(0, 2041)."

/-- Model of constructing `padding.PKCS7(blockSizeBits)` (and then `.padder()`
or `.unpadder()`): the constructor validates `0 <= block_size <= 2040` and
`block_size % 8 == 0` (block size in bits; PKCS7 stores the pad length in one
byte, so at most 255 bytes of padding are expressible) and raises `ValueError`
otherwise.  The source always passes `16384`, which fails this check. -/
def pkcs7New (blockSizeBits : Nat) : Except PyErr Unit :=
  if blockSizeBits ≤ 2040 ∧ blockSizeBits % 8 = 0 then .ok ()
  else .error pkcs7BlockSizeError

/-- PKCS7 padding of `data` to a multiple of `blockSizeBits / 8` bytes
(`padder.update(data) + padder.finalize()` on a fresh padder): append
`p` copies of the byte `p` where `1 <= p <= blockBytes`. -/
def pkcs7Pad (blockSizeBits : Nat) (data : Bytes) : Bytes :=
  let blockBytes := blockSizeBits / 8
  let p := blockBytes - data.length % blockBytes
  data ++ List.replicate p p

/-- PKCS7 unpadding (`unpadder.update(data) + unpadder.finalize()` on a fresh
unpadder): check the final byte `p` and strip `p` copies of it; raise
`ValueError` on malformed padding. -/
def pkcs7Unpad (blockSizeBits : Nat) (data : Bytes) : Except PyErr Bytes :=
  match data.getLast? with
  | none => .error (.valueError "Invalid padding bytes.")
  | some p =>
    if 1 ≤ p ∧ p ≤ blockSizeBits / 8 ∧ p ≤ data.length ∧
        (data.drop (data.length - p)).all (fun b => b = p) then
      .ok (data.take (data.length - p))
    else .error (.valueError "Invalid padding bytes.")

/-- Model of `bytes(note).decode(ascii)`: succeeds only on ASCII bytes. -/
def asciiDecode (b : Bytes) : Except PyErr Bytes :=
  if b.all (fun c => c < 128) then .ok b else .error .unicodeDecodeError

/-- The triple `[self.salt, self.nonces, self.kvs]` that the source pickles
and unpickles (lines 31-32, 49, 68).  The dicts are modelled as association
lists; the source keys them with `hmac.HMAC` objects, which the model
identifies with the byte string the object was constructed from (its HMAC
key) — the reading most favourable to the spec, since in CPython the objects
compare by identity and would never even be equal to one another. -/
structure StoreData where
  salt : Bytes
  nonces : List (Bytes × Bytes)
  kvs : List (Bytes × Bytes)
deriving DecidableEq, Repr

/-- One table entry: length-prefixed key followed by length-prefixed value. -/
def encEntry (e : Bytes × Bytes) : Bytes := encBytes e.1 ++ encBytes e.2

/-- One table: entry count followed by the encoded entries. -/
def encTable (t : List (Bytes × Bytes)) : Bytes :=
  t.length :: (t.map encEntry).flatten

/-- Model of `pickle.dumps([salt, nonces, kvs])`: a canonical injective
serialization of the triple (pickle is deterministic on this data). -/
def pickleDumps (d : StoreData) : Bytes :=
  encBytes d.salt ++ (encTable d.nonces ++ encTable d.kvs)

/-- Decode `count` table entries. -/
def decEntries : Nat → Bytes → Option (List (Bytes × Bytes) × Bytes)
  | 0, r => some ([], r)
  | n + 1, r => do
    let (k, r1) ← decBytes r
    let (v, r2) ← decBytes r1
    let (t, r3) ← decEntries n r2
    some ((k, v) :: t, r3)

/-- Decode one table (count, then entries). -/
def decTable : Bytes → Option (List (Bytes × Bytes) × Bytes)
  | [] => none
  | n :: r => decEntries n r

/-- Model of `pickle.loads`: the partial inverse of `pickleDumps`; any bytes
not produced by `pickleDumps` fail to parse (malformed serialized format). -/
def pickleLoads (b : Bytes) : Option StoreData := do
  let (salt, r1) ← decBytes b
  let (nonces, r2) ← decTable r1
  let (kvs, r3) ← decTable r2
  if r3 = [] then some ⟨salt, nonces, kvs⟩ else none

/-- Python dict lookup on the association-list model. -/
def tblLookup : List (Bytes × Bytes) → Bytes → Option Bytes
  | [], _ => none
  | (k, v) :: t, k0 => if k = k0 then some v else tblLookup t k0

/-- Python dict assignment `d[k] = v`: update in place or append. -/
def tblInsert : List (Bytes × Bytes) → Bytes → Bytes → List (Bytes × Bytes)
  | [], k, v => [(k, v)]
  | (k1, v1) :: t, k, v =>
    if k1 = k then (k1, v) :: t else (k1, v1) :: tblInsert t k v

/-- Python `del d[k]`: remove the entry for `k` (first occurrence). -/
def tblErase : List (Bytes × Bytes) → Bytes → List (Bytes × Bytes)
  | [], _ => []
  | (k1, v1) :: t, k => if k1 = k then t else (k1, v1) :: tblErase t k

-- Round-trip lemmas for the pickle model.

theorem decBytes_encBytes (b r : Bytes) :
    decBytes (encBytes b ++ r) = some (b, r) := by
  simp [encBytes, decBytes, List.take_left, List.drop_left]

theorem decEntries_encEntries (t : List (Bytes × Bytes)) (r : Bytes) :
    decEntries t.length ((t.map encEntry).flatten ++ r) = some (t, r) := by
  induction t with
  | nil => simp [decEntries]
  | cons e t ih =>
    obtain ⟨k, v⟩ := e
    simp [decEntries, encEntry, List.append_assoc, decBytes_encBytes, ih]

theorem decTable_encTable (t : List (Bytes × Bytes)) (r : Bytes) :
    decTable (encTable t ++ r) = some (t, r) := by
  simp [encTable, decTable, decEntries_encEntries]

theorem decTable_encTable_nil (t : List (Bytes × Bytes)) :
    decTable (encTable t) = some (t, []) := by
  have h := decTable_encTable t []
  simpa using h

/-- `pickle.loads` inverts `pickle.dumps`. -/
theorem pickleLoads_pickleDumps (d : StoreData) :
    pickleLoads (pickleDumps d) = some d := by
  obtain ⟨salt, nonces, kvs⟩ := d
  simp [pickleDumps, pickleLoads, decBytes_encBytes, decTable_encTable,
    decTable_encTable_nil]

/-- `pickleDumps` is injective. -/
theorem pickleDumps_injective {d1 d2 : StoreData}
    (h : pickleDumps d1 = pickleDumps d2) : d1 = d2 := by
  have h1 := pickleLoads_pickleDumps d1
  rw [h, pickleLoads_pickleDumps d2] at h1
  exact (Option.some.injEq _ _ ▸ h1).symm

-- Injectivity of the symbolic primitives.

theorem encBytes_append_inj {a1 b1 a2 b2 : Bytes}
    (h : encBytes a1 ++ b1 = encBytes a2 ++ b2) : a1 = a2 ∧ b1 = b2 := by
  simp only [encBytes, List.cons_append, List.cons.injEq] at h
  obtain ⟨hlen, happ⟩ := h
  exact List.append_inj happ hlen

theorem hmacSha256_inj {k1 m1 k2 m2 : Bytes}
    (h : hmacSha256 k1 m1 = hmacSha256 k2 m2) : k1 = k2 ∧ m1 = m2 := by
  simp only [hmacSha256, List.cons.injEq, true_and] at h
  exact encBytes_append_inj h

theorem pbkdf2Sha256_inj {p1 s1 p2 s2 : Bytes}
    (h : pbkdf2Sha256 p1 s1 = pbkdf2Sha256 p2 s2) : p1 = p2 ∧ s1 = s2 := by
  simp only [pbkdf2Sha256, List.cons.injEq, true_and] at h
  exact encBytes_append_inj h

/-- In-memory state of a `PrivNotes` instance: the fields assigned in
`__init__` (source lines 32, 36-38, 44). -/
structure PrivNotes where
  salt : Bytes
  nonces : List (Bytes × Bytes)
  kvs : List (Bytes × Bytes)
  source_key : Bytes
deriving DecidableEq, Repr

/-- `PrivNotes.MAX_NOTE_LEN` (source line 12). -/
def MAX_NOTE_LEN : Nat := 2048

/-- The error raised at source line 52 on a checksum mismatch. -/
def checksumError : PyErr :=
  .valueError "Checksum is invalid, password is incorrect, or data has been tampered with."

/-- `PrivNotes.__init__(password, data=None, checksum=None)` (source lines
15-52).  `password` is the ASCII byte string of the password; `data` is the
byte string after `bytes.fromhex`; `freshSalt` models `os.urandom(16)` taken
in the empty-database branch (line 38).  Control flow as in the source:
unpickle and destructure (lines 31-32) or initialize empty tables and a fresh
salt (lines 36-38); derive the source key by PBKDF2 over (password, salt)
(lines 41-44); then, only when `data` was given, recompute
`HMAC(source_key, pickle.dumps([salt, nonces, kvs]))` and compare it with
`checksum` (lines 47-52).  The Python comparison is
`checksum != h.finalize().hex()`, and `None` compares unequal to every
string, so an absent checksum also takes the raise branch. -/
def PrivNotes.init (password : Bytes) (data : Option Bytes)
    (checksum : Option Bytes) (freshSalt : Bytes) : Except PyErr PrivNotes :=
  match data with
  | some blob =>
    match pickleLoads blob with
    | none => .error (.valueError "malformed serialized format")
    | some d =>
      let source_key := pbkdf2Sha256 password d.salt
      if checksum = some (hmacSha256 source_key
          (pickleDumps ⟨d.salt, d.nonces, d.kvs⟩)) then
        .ok ⟨d.salt, d.nonces, d.kvs, source_key⟩
      else .error checksumError
  | none =>
    .ok ⟨freshSalt, [], [], pbkdf2Sha256 password freshSalt⟩

/-- The title-tagging computation that opens `get` (source lines 83-85),
`set` (lines 114-116) and `remove` (lines 138-139):
`padding.PKCS7(16384).padder()` followed by
`hmac.HMAC(padder.update(title) + padder.finalize(), hashes.SHA256())`.
Two things to note, both straight from the source: the PKCS7 block size
16384 is rejected by the library at construction time (so this computation
always raises), and the `hmac.HMAC` object that would be built is keyed by
the padded title itself — `self.source_key` does not enter the computation,
which is why this function takes no key argument.  The unfinalized HMAC
object used as the dict key is modelled by the padded title it wraps. -/
def titleTag (title : Bytes) : Except PyErr Bytes :=
  match pkcs7New 16384 with
  | .error e => .error e
  | .ok _ => .ok (pkcs7Pad 16384 title)

/-- `PrivNotes.get(title)` (source lines 72-94).  Read-only: no field of
`self` is assigned anywhere in the method. -/
def PrivNotes.get (s : PrivNotes) (title : Bytes) : Except PyErr (Option Bytes) :=
  match titleTag title with
  | .error e => .error e
  | .ok hmacd_title =>
    match tblLookup s.nonces hmacd_title with
    | some nonce =>
      match tblLookup s.kvs hmacd_title with
      | none => .error .keyError
      | some note =>
        match aesgcmDecrypt s.source_key nonce note with
        | .error e => .error e
        | .ok decrypted_note =>
          match pkcs7Unpad 16384 decrypted_note with
          | .error e => .error e
          | .ok unpadded_note => asciiDecode unpadded_note |>.map some
    | none => .ok none

/-- `PrivNotes.set(title, note)` (source lines 97-125).  `freshNonce` models
`os.urandom(16)` (line 123).  Returns the raised error or `()` together with
the post-state.  The source reuses the one finalized padder object to pad the
note (line 117), which in the real library would additionally raise
`AlreadyFinalized`; the model charitably pads with a fresh padder — this only
matters on a branch the block-size error makes unreachable anyway. -/
def PrivNotes.set (s : PrivNotes) (title note : Bytes) (freshNonce : Bytes) :
    Except PyErr Unit × PrivNotes :=
  if note.length > MAX_NOTE_LEN then
    (.error (.valueError "Maximum note length exceeded"), s)
  else
    match titleTag title with
    | .error e => (.error e, s)
    | .ok hmacd_title =>
      let padded_note := pkcs7Pad 16384 note
      let (nonce, nonces1) :=
        match tblLookup s.nonces hmacd_title with
        | some n => (n, s.nonces)
        | none => (freshNonce, tblInsert s.nonces hmacd_title freshNonce)
      (.ok (), { s with
                  nonces := nonces1
                  kvs := tblInsert s.kvs hmacd_title
                    (aesgcmEncrypt s.source_key nonce padded_note) })

/-- The body of `PrivNotes.remove` after the title tag is computed (source
lines 140-145): if the tag is in `self.nonces`, execute
`del self.kvs[hmacd_title]` and return `True`, else return `False`.  Note
that the deletion branch deletes only the `self.kvs` entry — the
`self.nonces` entry for the tag is not deleted. -/
def PrivNotes.removeBody (s : PrivNotes) (hmacd_title : Bytes) :
    Except PyErr Bool × PrivNotes :=
  match tblLookup s.nonces hmacd_title with
  | some _ => (.ok true, { s with kvs := tblErase s.kvs hmacd_title })
  | none => (.ok false, s)

/-- `PrivNotes.remove(title)` (source lines 128-145): compute the title tag
(lines 138-139), then run the membership test and deletion (lines 140-145). -/
def PrivNotes.remove (s : PrivNotes) (title : Bytes) :
    Except PyErr Bool × PrivNotes :=
  match titleTag title with
  | .error e => (.error e, s)
  | .ok hmacd_title => s.removeBody hmacd_title

/-- `PrivNotes.dump()` (source lines 55-70).  The method builds
`ser_data = [self.salt, self.nonces, self.kvs]` and pickles it to hex (lines
68-69), but its return expression then evaluates
`hmac.HMAC(self.source_key, hashes.SHA256()).hex()` (line 70): the library
HMAC object exposes only `update` / `copy` / `verify` / `finalize`, so the
attribute lookup `.hex` raises `AttributeError` — nothing is returned, the
HMAC is never updated with the serialized data, and no field of `self` is
assigned anywhere in the method. -/
def PrivNotes.dump (s : PrivNotes) : Except PyErr (Bytes × Bytes) × PrivNotes :=
  let ser_data : StoreData := ⟨s.salt, s.nonces, s.kvs⟩
  let deser_data := pickleDumps ser_data
  (.error (.attributeError "HMAC object has no attribute hex"), s)

-- Evaluation lemmas shared by the claim theorems.

theorem pkcs7New_16384 : pkcs7New 16384 = .error pkcs7BlockSizeError := by
  simp [pkcs7New]

theorem titleTag_blockSizeError (title : Bytes) :
    titleTag title = .error pkcs7BlockSizeError := by
  simp [titleTag, pkcs7New_16384]

theorem get_blockSizeError (s : PrivNotes) (title : Bytes) :
    s.get title = .error pkcs7BlockSizeError := by
  simp [PrivNotes.get, titleTag_blockSizeError]

theorem set_blockSizeError (s : PrivNotes) (title note r : Bytes)
    (h : note.length ≤ MAX_NOTE_LEN) :
    s.set title note r = (.error pkcs7BlockSizeError, s) := by
  have h2 : ¬note.length > MAX_NOTE_LEN := Nat.not_lt.mpr h
  simp [PrivNotes.set, titleTag_blockSizeError, h2]

theorem set_noteTooLong (s : PrivNotes) (title note r : Bytes)
    (h : note.length > MAX_NOTE_LEN) :
    s.set title note r = (.error (.valueError "Maximum note length exceeded"), s) := by
  simp [PrivNotes.set, h]

theorem remove_blockSizeError (s : PrivNotes) (title : Bytes) :
    s.remove title = (.error pkcs7BlockSizeError, s) := by
  simp [PrivNotes.remove, titleTag_blockSizeError]

theorem removeBody_preserves_nonces (s : PrivNotes) (tag : Bytes) :
    (s.removeBody tag).2.nonces = s.nonces := by
  cases h : tblLookup s.nonces tag <;> simp [PrivNotes.removeBody, h]

theorem init_ok (p r : Bytes) (d : StoreData) :
    PrivNotes.init p (some (pickleDumps d))
      (some (hmacSha256 (pbkdf2Sha256 p d.salt) (pickleDumps d))) r =
      .ok ⟨d.salt, d.nonces, d.kvs, pbkdf2Sha256 p d.salt⟩ := by
  obtain ⟨ds, dn, dk⟩ := d
  simp [PrivNotes.init, pickleLoads_pickleDumps]

theorem init_mismatch (p r c : Bytes) (d : StoreData)
    (h : c ≠ hmacSha256 (pbkdf2Sha256 p d.salt) (pickleDumps d)) :
    PrivNotes.init p (some (pickleDumps d)) (some c) r = .error checksumError := by
  obtain ⟨ds, dn, dk⟩ := d
  simp [PrivNotes.init, pickleLoads_pickleDumps, h]

-- Claim theorems.

/-- C1: the spec claims that for every password, title, and note with
`len(note) <= MAX_NOTE_LEN`, `set(title, note)` followed by `get(title)`
returns exactly `note`.  In the code both `set` and `get` construct
`padding.PKCS7(16384)`, which the library rejects (block size above 2040
bits), so `set` raises `ValueError` without storing anything and `get` raises
the same `ValueError` instead of returning the note. -/
theorem claim_C1_set_then_get_raises (s : PrivNotes) (title note freshNonce : Bytes)
    (h : note.length ≤ MAX_NOTE_LEN) :
    (s.set title note freshNonce).1 = .error pkcs7BlockSizeError ∧
    ((s.set title note freshNonce).2).get title = .error pkcs7BlockSizeError := by
  rw [set_blockSizeError s title note freshNonce h]
  exact ⟨rfl, get_blockSizeError s title⟩

/-- Witness for C1: a concrete store, title and one-byte note. -/
theorem claim_C1_set_then_get_raises_witness :
    ((PrivNotes.mk [9] [] [] [7]).set [1] [2] [3]).1 = .error pkcs7BlockSizeError ∧
    (((PrivNotes.mk [9] [] [] [7]).set [1] [2] [3]).2).get [1] =
      .error pkcs7BlockSizeError :=
  claim_C1_set_then_get_raises (PrivNotes.mk [9] [] [] [7]) [1] [2] [3] (by decide)

/-- C2: the spec claims `remove(title)` on a present title deletes both the
nonce-table entry and the ciphertext-table entry and returns `True`, so that
the two tables stay co-populated.  In the code `remove` always raises
`ValueError` (invalid PKCS7 block size) before reaching the tables, and its
deletion logic (`removeBody`, source lines 140-145) deletes only the `kvs`
entry: the nonce table is preserved verbatim on every path, so co-removal
never happens. -/
theorem claim_C2_remove_raises_and_never_deletes_nonce
    (s : PrivNotes) (title tag : Bytes) :
    s.remove title = (.error pkcs7BlockSizeError, s) ∧
    (s.removeBody tag).2.nonces = s.nonces :=
  ⟨remove_blockSizeError s title, removeBody_preserves_nonces s tag⟩

/-- C3: the spec claims the nonce for a title is generated exactly once, at
the first `set`, and reused by every later `set` of the same title.  In the
code no `set` ever generates or records a nonce: every call raises the PKCS7
block-size `ValueError` and leaves the store (nonce table included) exactly
as it was, so after two sets the store is still the initial one. -/
theorem claim_C3_set_never_records_nonce (s : PrivNotes)
    (title note1 note2 r1 r2 : Bytes) (h1 : note1.length ≤ MAX_NOTE_LEN)
    (h2 : note2.length ≤ MAX_NOTE_LEN) :
    (s.set title note1 r1).1 = .error pkcs7BlockSizeError ∧
    (s.set title note1 r1).2 = s ∧
    (((s.set title note1 r1).2).set title note2 r2).2 = s := by
  rw [set_blockSizeError s title note1 r1 h1]
  refine ⟨rfl, rfl, ?_⟩
  show (s.set title note2 r2).2 = s
  rw [set_blockSizeError s title note2 r2 h2]

/-- Witness for C3: a concrete store, title and two one-byte notes. -/
theorem claim_C3_set_never_records_nonce_witness :
    ((PrivNotes.mk [9] [] [] [7]).set [1] [2] [3]).1 = .error pkcs7BlockSizeError ∧
    ((PrivNotes.mk [9] [] [] [7]).set [1] [2] [3]).2 = PrivNotes.mk [9] [] [] [7] ∧
    ((((PrivNotes.mk [9] [] [] [7]).set [1] [2] [3]).2).set [1] [4] [5]).2 =
      PrivNotes.mk [9] [] [] [7] :=
  claim_C3_set_never_records_nonce (PrivNotes.mk [9] [] [] [7]) [1] [2] [4] [3] [5]
    (by decide) (by decide)

/-- C4: the spec claims `dump` returns the hex-encoded blob together with a
checksum equal to HMAC-SHA-256 keyed by the source key over that blob.  In the
code the checksum expression is
`hmac.HMAC(self.source_key, hashes.SHA256()).hex()`: the HMAC is never
updated with the blob, and the HMAC object has no `hex` attribute, so `dump`
raises `AttributeError` and returns nothing at all. -/
theorem claim_C4_dump_raises_attributeError (s : PrivNotes) :
    (s.dump).1 = .error (.attributeError "HMAC object has no attribute hex") :=
  rfl

/-- C5: the spec claims the lookup tag used by `set`/`get`/`remove` is
HMAC-SHA-256 keyed by the SourceKey applied to the padded title, computed
deterministically.  In the code the tag computation (shared by all three
methods) takes no key from the store at all — the `hmac.HMAC` object it would
build is keyed by the padded title itself, never finalized, and compared by
object identity — and it never even completes: `padding.PKCS7(16384)` raises
`ValueError` for every title, as this theorem states. -/
theorem claim_C5_titleTag_never_computed (title : Bytes) :
    titleTag title = .error pkcs7BlockSizeError :=
  titleTag_blockSizeError title

/-- C6: the spec claims that constructing a store from a well-formed blob
with the checksum absent succeeds, with no integrity check performed.  In the
code the comparison `checksum != h.finalize().hex()` runs whenever `data` is
present, and `None` is unequal to every hex digest, so construction with any
well-formed blob and an absent checksum always raises the checksum-mismatch
`ValueError`. -/
theorem claim_C6_absent_checksum_raises (password freshSalt : Bytes) (d : StoreData) :
    PrivNotes.init password (some (pickleDumps d)) none freshSalt =
      .error checksumError := by
  obtain ⟨ds, dn, dk⟩ := d
  simp [PrivNotes.init, pickleLoads_pickleDumps]

/-- C7: loading an untampered blob with its matching checksum and the correct
password succeeds; loading the same blob and checksum with a wrong password,
and loading a different (tampered) well-formed blob against the original
checksum with the correct password, both raise the one conflated
checksum-mismatch `ValueError` of source line 52. -/
theorem claim_C7_checksum_verification (p p2 r1 r2 r3 : Bytes) (d d2 : StoreData)
    (hp : p2 ≠ p) (hd : d2 ≠ d) :
    PrivNotes.init p (some (pickleDumps d))
      (some (hmacSha256 (pbkdf2Sha256 p d.salt) (pickleDumps d))) r1 =
      .ok ⟨d.salt, d.nonces, d.kvs, pbkdf2Sha256 p d.salt⟩ ∧
    PrivNotes.init p2 (some (pickleDumps d))
      (some (hmacSha256 (pbkdf2Sha256 p d.salt) (pickleDumps d))) r2 =
      .error checksumError ∧
    PrivNotes.init p (some (pickleDumps d2))
      (some (hmacSha256 (pbkdf2Sha256 p d.salt) (pickleDumps d))) r3 =
      .error checksumError := by
  refine ⟨init_ok p r1 d, ?_, ?_⟩
  · apply init_mismatch
    intro h
    exact hp ((pbkdf2Sha256_inj (hmacSha256_inj h).1).1).symm
  · apply init_mismatch
    intro h
    exact hd (pickleDumps_injective (hmacSha256_inj h).2).symm

/-- Witness for C7: passwords `[0]` (correct) and `[1]` (wrong), store data
with salt `[2]` and empty tables, tampered data with salt `[3]`. -/
theorem claim_C7_checksum_verification_witness :
    PrivNotes.init [0] (some (pickleDumps ⟨[2], [], []⟩))
      (some (hmacSha256 (pbkdf2Sha256 [0] [2]) (pickleDumps ⟨[2], [], []⟩))) [] =
      .ok ⟨[2], [], [], pbkdf2Sha256 [0] [2]⟩ ∧
    PrivNotes.init [1] (some (pickleDumps ⟨[2], [], []⟩))
      (some (hmacSha256 (pbkdf2Sha256 [0] [2]) (pickleDumps ⟨[2], [], []⟩))) [] =
      .error checksumError ∧
    PrivNotes.init [0] (some (pickleDumps ⟨[3], [], []⟩))
      (some (hmacSha256 (pbkdf2Sha256 [0] [2]) (pickleDumps ⟨[2], [], []⟩))) [] =
      .error checksumError :=
  claim_C7_checksum_verification [0] [1] [] [] [] ⟨[2], [], []⟩ ⟨[3], [], []⟩
    (by decide) (by decide)

/-- C8: the spec claims a note of length exactly `MAX_NOTE_LEN` is accepted
while length `MAX_NOTE_LEN + 1` raises the note-length error with the store
unchanged.  The over-limit half holds in the code (the length check is the
first statement of `set`, so the raise leaves the store untouched), but the
at-limit half fails: the at-limit `set` still raises — the PKCS7 block-size
`ValueError` — instead of succeeding (again leaving the store unchanged). -/
theorem claim_C8_note_length_boundary (s : PrivNotes) (title nA nB r : Bytes)
    (hA : nA.length = MAX_NOTE_LEN) (hB : nB.length = MAX_NOTE_LEN + 1) :
    s.set title nB r = (.error (.valueError "Maximum note length exceeded"), s) ∧
    s.set title nA r = (.error pkcs7BlockSizeError, s) := by
  constructor
  · exact set_noteTooLong s title nB r (by rw [hB]; exact Nat.lt_succ_self _)
  · exact set_blockSizeError s title nA r (le_of_eq hA)

/-- Witness for C8: notes of length 2048 and 2049. -/
theorem claim_C8_note_length_boundary_witness :
    (PrivNotes.mk [9] [] [] [7]).set [1] (List.replicate 2049 0) [3] =
      (.error (.valueError "Maximum note length exceeded"), PrivNotes.mk [9] [] [] [7]) ∧
    (PrivNotes.mk [9] [] [] [7]).set [1] (List.replicate 2048 0) [3] =
      (.error pkcs7BlockSizeError, PrivNotes.mk [9] [] [] [7]) :=
  claim_C8_note_length_boundary (PrivNotes.mk [9] [] [] [7]) [1]
    (List.replicate 2048 0) (List.replicate 2049 0) [3]
    (by simp only [List.length_replicate, MAX_NOTE_LEN])
    (by simp only [List.length_replicate, MAX_NOTE_LEN])

/-- C9: the spec claims titles whose raw length already exceeds the title pad
block (16384 bits, i.e. 2048 bytes) are rejected with a dedicated
`InvalidTitle` error by the title-indexing path of `set`/`get`/`remove`.  The
code contains no title-length check at all: a title longer than the pad block
receives exactly the same generic block-size `ValueError` that every title of
every length receives, so no length-based rejection exists. -/
theorem claim_C9_no_title_length_rejection (s : PrivNotes)
    (longTitle shortTitle : Bytes) (h1 : 2048 < longTitle.length)
    (h2 : shortTitle.length ≤ 2048) :
    s.get longTitle = .error pkcs7BlockSizeError ∧
    s.get shortTitle = .error pkcs7BlockSizeError ∧
    s.get longTitle = s.get shortTitle := by
  refine ⟨get_blockSizeError s longTitle, get_blockSizeError s shortTitle, ?_⟩
  rw [get_blockSizeError s longTitle, get_blockSizeError s shortTitle]

/-- Witness for C9: a 2049-byte title and a one-byte title. -/
theorem claim_C9_no_title_length_rejection_witness :
    (PrivNotes.mk [9] [] [] [7]).get (List.replicate 2049 0) =
      .error pkcs7BlockSizeError ∧
    (PrivNotes.mk [9] [] [] [7]).get [0] = .error pkcs7BlockSizeError ∧
    (PrivNotes.mk [9] [] [] [7]).get (List.replicate 2049 0) =
      (PrivNotes.mk [9] [] [] [7]).get [0] :=
  claim_C9_no_title_length_rejection (PrivNotes.mk [9] [] [] [7])
    (List.replicate 2049 0) [0] (by rw [List.length_replicate]; decide) (by decide)

/-- C10: `dump` never assigns to any field of the store, so the salt, the
nonce table and the ciphertext table — the whole state — are identical before
and after the call, and repeated `dump`s cannot affect later operations. -/
theorem claim_C10_dump_preserves_state (s : PrivNotes) :
    (s.dump).2 = s ∧ (s.dump).2.salt = s.salt ∧
    (s.dump).2.nonces = s.nonces ∧ (s.dump).2.kvs = s.kvs :=
  ⟨rfl, rfl, rfl, rfl⟩
